import Mathlib

/-!
Verification development for the Fleet Commander orchestrator core.

This file gives a shallow embedding, in Lean, of the parts of the
TypeScript sources relevant to the lifecycle manager (state
classification, reaction execution with retry/escalation, poll-cycle
summary trigger), the JSONL event store, the plan service's
dependency-gated spawning, and the review-batch decision fallback, and
proves properties of those embeddings.

Conventions of the embedding:
* JS strings are Lean `String`s; JS string scans (`includes`,
  `toUpperCase`, `toLowerCase`) are modelled on the underlying `List Char`.
* `async` plugin calls are modelled by passing the values they return
  (or a flag recording that they threw) as explicit inputs.
* Machine numbers (attempt counters, timestamps in ms) are `Nat`;
  JS `Date.now() - t` guarded by `> d` with `d > 0` agrees with the
  truncated `Nat` subtraction used here.
-/

namespace FleetCommander

/-- JS `hay.includes(needle)` on char lists: `needle` occurs as a
contiguous segment of `hay`. -/
def occursIn (needle : List Char) : List Char → Bool
  | [] => needle.isEmpty
  | c :: rest => needle.isPrefixOf (c :: rest) || occursIn needle rest

/-- JS `hay.includes(needle)` on strings. -/
def strIncludes (hay needle : String) : Bool :=
  occursIn needle.data hay.data

/-- JS `s.toUpperCase()` (ASCII, which is all the source compares). -/
def upperStr (s : String) : String :=
  String.mk (s.data.map Char.toUpper)

/-- JS `s.toLowerCase()` (ASCII, which is all the source compares). -/
def lowerStr (s : String) : String :=
  String.mk (s.data.map Char.toLower)

/-- The 14 primary session statuses of the data model. -/
inductive SessionStatus where
  | spawning
  | working
  | pr_open
  | ci_failed
  | review_pending
  | changes_requested
  | approved
  | mergeable
  | merged
  | needs_input
  | stuck
  | errored
  | killed
  | done
deriving DecidableEq, Repr

/-- Modelled from the spec: the source file `types.ts`, which defines the
`TERMINAL_STATUSES` set, is not among the provided sources; the spec
states the terminal set is `{merged, killed, done}`. -/
def TERMINAL_STATUSES : SessionStatus → Bool
  | .merged | .killed | .done => true
  | _ => false

/-- SCM pull-request states returned by `getPRState`. -/
inductive PRState where
  | open_
  | merged
  | closed
deriving DecidableEq, Repr

/-- SCM CI summaries returned by `getCISummary`. -/
inductive CIStatus where
  | passing
  | failing
  | pending
  | none_
deriving DecidableEq, Repr

/-- SCM review decisions returned by `getReviewDecision`. -/
inductive ReviewDecision where
  | approved
  | changes_requested
  | pending
  | none_
deriving DecidableEq, Repr

/-- Agent activity states returned by `detectActivity`. -/
inductive Activity where
  | active
  | ready
  | idle
  | waiting_input
  | blocked
  | exited
deriving DecidableEq, Repr

/-- Event priorities. -/
inductive EventPriority where
  | urgent
  | action
  | warning
  | info
deriving DecidableEq, Repr

/-- The slice of an `OrchestratorEvent` the verified properties need:
its type string plus the `data` fields written by the lifecycle manager
(`attempt`, `resolved`, `skipped`). -/
structure MEvent where
  type : String
  attempt : Option Nat := none
  resolved : Option Bool := none
  skipped : Bool := false
deriving DecidableEq, Repr

/-! ## `parseDuration` (lifecycle-manager) -/

/-- JS `parseInt(s, 10)` on a string of decimal digits. -/
def parseIntDec (ds : List Char) : Nat :=
  ds.foldl (fun a c => a * 10 + (c.toNat - 48)) 0

/-- The regex match `/^(\d+)(s|m|h)$/` of `parseDuration`: on success,
the digit group and the unit character. -/
def matchDuration (s : String) : Option (List Char × Char) :=
  match s.data.getLast? with
  | none => none
  | some u =>
    let ds := s.data.dropLast
    if (u == 's' || u == 'm' || u == 'h') && !ds.isEmpty && ds.all Char.isDigit then
      some (ds, u)
    else
      none

/-- Function `parseDuration` from the lifecycle manager: "10m"-style duration
strings to milliseconds, 0 when the regex does not match. -/
def parseDuration (s : String) : Nat :=
  match matchDuration s with
  | none => 0
  | some (ds, u) =>
    let value := parseIntDec ds
    if u == 's' then value * 1000
    else if u == 'm' then value * 60000
    else if u == 'h' then value * 3600000
    else 0

/-- The shape accepted by `parseDuration`'s regex `^(\d+)(s|m|h)$`:
one or more decimal digits followed by a unit letter. -/
def durationShape (s : String) : Prop :=
  ∃ ds u, s.data = ds ++ [u] ∧ ds ≠ [] ∧ ds.all Char.isDigit = true ∧
    (u = 's' ∨ u = 'm' ∨ u = 'h')

/-! ## Reaction configuration and escalation -/

/-- Field `escalateAfter` is either a duration string or an integer in the
YAML configuration; both paths exist in `executeReaction`. -/
inductive EscalateAfter where
  | str (s : String)
  | int (n : Nat)
deriving DecidableEq, Repr

/-- A reaction configuration entry (absent fields are `none`). -/
structure ReactionConfig where
  action : Option String := none
  message : Option String := none
  retries : Option Nat := none
  escalateAfter : Option EscalateAfter := none
  priority : Option EventPriority := none
  auto : Option Bool := none
deriving DecidableEq, Repr

/-- In-memory reaction tracker: attempt count and first-triggered time
(ms). -/
structure ReactionTracker where
  attempts : Nat
  firstTriggered : Nat
deriving DecidableEq, Repr

/-- The duration-string escalation test of `executeReaction`
(lines 488-493): the parsed duration must be strictly positive and
elapsed time must exceed it. -/
def stringEscalation (s : String) (now firstTriggered : Nat) : Bool :=
  let durationMs := parseDuration s
  decide (0 < durationMs) && decide (now - firstTriggered > durationMs)

/-- The escalation decision of `executeReaction` (lines 480-497),
evaluated after the attempt increment. `retries ?? Infinity` means a
missing `retries` never escalates by count. -/
def shouldEscalateFn (cfg : ReactionConfig) (attempts now firstTriggered : Nat) : Bool :=
  let byRetries :=
    match cfg.retries with
    | some r => decide (attempts > r)
    | none => false
  let byString :=
    match cfg.escalateAfter with
    | some (.str s) => stringEscalation s now firstTriggered
    | _ => false
  let byInt :=
    match cfg.escalateAfter with
    | some (.int n) => decide (attempts > n)
    | _ => false
  byRetries || byString || byInt

/-- Function `checkAgentAwareness` from the lifecycle manager: conservative
keyword matching on lowercased terminal output. -/
def checkAgentAwareness (reactionKey : String) (terminalOutput : String) : Bool :=
  let lower := lowerStr terminalOutput
  if reactionKey == "ci-failed" then
    strIncludes lower "ci fail" || strIncludes lower "fixing ci" ||
    strIncludes lower "lint error" || strIncludes lower "test fail" ||
    strIncludes lower "build fail"
  else if reactionKey == "changes-requested" then
    strIncludes lower "review feedback" || strIncludes lower "address comment" ||
    strIncludes lower "changes requested"
  else
    false

/-- The `ReactionResult` record returned by `executeReaction`. -/
structure ReactionResult where
  reactionType : String
  success : Bool
  action : String
  escalated : Bool
deriving DecidableEq, Repr

/-- The values the surrounding system (session manager, plugins,
services) returns during one `executeReaction` invocation. A `*Threw`
flag models the corresponding `try` block throwing before producing a
decisive answer. -/
structure ExecEnv where
  sessionFound : Bool := true
  dedupThrew : Bool := false
  agentRuntimePresent : Bool := true
  runtimeHandlePresent : Bool := true
  activityActive : Bool := false
  recentOutput : String := ""
  hasPR : Bool := false
  hasProject : Bool := true
  scmPresent : Bool := false
  enrichFailingChecks : Bool := false
  ciChecksOk : Bool := false
  sendOk : Bool := true
  spawnOk : Bool := true
  reviewFetchOk : Bool := true
  prevReviewAttempts : Nat := 0
  reconAvailable : Bool := false
  planIdPresent : Bool := false
  reconOk : Bool := true
deriving DecidableEq, Repr

/-- Observable outcome of one `executeReaction` invocation: the updated
tracker, the returned result, the events appended to the store, the
priority (if any) at which `notifyHuman` was invoked, and whether a
message was sent to the agent. -/
structure ExecOut where
  tracker : ReactionTracker
  result : ReactionResult
  events : List MEvent
  notified : Option EventPriority
  sentToAgent : Bool
deriving DecidableEq, Repr

/-- The action switch of `executeReaction` (run only when escalation did
not fire). `trk1` is the already-incremented tracker. -/
def actionPhase (key : String) (cfg : ReactionConfig) (trk1 : ReactionTracker)
    (env : ExecEnv) : ExecOut :=
  let action := cfg.action.getD "notify"
  if action == "send-to-agent" then
    match cfg.message with
    | some _ =>
      let dedupSkip := !env.dedupThrew && env.sessionFound && env.agentRuntimePresent &&
        env.runtimeHandlePresent && env.activityActive &&
        checkAgentAwareness key env.recentOutput
      if dedupSkip then
        { tracker := trk1
          result := { reactionType := key, success := true, action := "send-to-agent",
                      escalated := false }
          events := [{ type := "reaction.triggered", skipped := true }]
          notified := none
          sentToAgent := false }
      else
        let enrichEvents : List MEvent :=
          if key == "ci-failed" && env.hasPR && env.scmPresent && env.enrichFailingChecks then
            [{ type := "ci.failing", attempt := some trk1.attempts }]
          else []
        if env.sendOk then
          let fixSentEvents : List MEvent :=
            if key == "ci-failed" && env.hasPR && env.scmPresent && env.ciChecksOk then
              [{ type := "ci.fix_sent", attempt := some trk1.attempts }]
            else []
          { tracker := trk1
            result := { reactionType := key, success := true, action := "send-to-agent",
                        escalated := false }
            events := enrichEvents ++ fixSentEvents
            notified := none
            sentToAgent := true }
        else
          { tracker := trk1
            result := { reactionType := key, success := false, action := "send-to-agent",
                        escalated := false }
            events := enrichEvents
            notified := none
            sentToAgent := false }
    | none =>
      { tracker := trk1
        result := { reactionType := key, success := false, action := action,
                    escalated := false }
        events := []
        notified := none
        sentToAgent := false }
  else if action == "notify" then
    { tracker := trk1
      result := { reactionType := key, success := true, action := "notify", escalated := false }
      events := [{ type := "reaction.triggered" }]
      notified := some (cfg.priority.getD .info)
      sentToAgent := false }
  else if action == "auto-merge" then
    { tracker := trk1
      result := { reactionType := key, success := true, action := "auto-merge",
                  escalated := false }
      events := [{ type := "reaction.triggered" }]
      notified := some .action
      sentToAgent := false }
  else if action == "spawn-review" then
    if env.sessionFound && env.hasPR && env.hasProject && env.spawnOk then
      { tracker := trk1
        result := { reactionType := key, success := true, action := "spawn-review",
                    escalated := false }
        events := []
        notified := none
        sentToAgent := false }
    else
      { tracker := trk1
        result := { reactionType := key, success := false, action := "spawn-review",
                    escalated := false }
        events := []
        notified := none
        sentToAgent := false }
  else if action == "review-gate" then
    if env.sessionFound && env.hasPR && env.hasProject && env.scmPresent &&
        env.reviewFetchOk then
      { tracker := trk1
        result := { reactionType := key, success := true, action := "review-gate",
                    escalated := false }
        events := [{ type := "review.feedback_sent",
                     attempt := some (env.prevReviewAttempts + 1) }]
        notified := none
        sentToAgent := true }
    else
      { tracker := trk1
        result := { reactionType := key, success := false, action := "review-gate",
                    escalated := false }
        events := []
        notified := none
        sentToAgent := false }
  else if action == "spawn-reconciliation" then
    if env.reconAvailable && env.sessionFound && env.planIdPresent && env.reconOk then
      { tracker := trk1
        result := { reactionType := key, success := true, action := "spawn-reconciliation",
                    escalated := false }
        events := [{ type := "reconciliation.started" }]
        notified := none
        sentToAgent := false }
    else
      { tracker := trk1
        result := { reactionType := key, success := false, action := "spawn-reconciliation",
                    escalated := false }
        events := []
        notified := none
        sentToAgent := false }
  else
    { tracker := trk1
      result := { reactionType := key, success := false, action := action, escalated := false }
      events := []
      notified := none
      sentToAgent := false }

/-- Function `executeReaction` from the lifecycle manager: increment the tracker,
decide escalation, and either emit `reaction.escalated` + notify (the
action does not run) or run the action switch. -/
def executeReaction (key : String) (cfg : ReactionConfig) (trk : ReactionTracker)
    (now : Nat) (env : ExecEnv) : ExecOut :=
  let attempts := trk.attempts + 1
  let trk1 : ReactionTracker := { trk with attempts := attempts }
  if shouldEscalateFn cfg attempts now trk.firstTriggered then
    { tracker := trk1
      result := { reactionType := key, success := true, action := "escalated",
                  escalated := true }
      events := [{ type := "reaction.escalated", attempt := some attempts }]
      notified := some (cfg.priority.getD .urgent)
      sentToAgent := false }
  else
    actionPhase key cfg trk1 env

/-! ## State classification (`determineStatus`) -/

/-- The SCM views consulted by step 4 of `determineStatus`. -/
structure ScmView where
  prState : PRState
  ci : CIStatus
  review : ReviewDecision
  mergeable : Bool
deriving DecidableEq, Repr

/-- The session fields `determineStatus` consults. -/
structure SessionView where
  status : SessionStatus
  hasPR : Bool
  hasBranch : Bool
  hasRuntimeHandle : Bool
deriving DecidableEq, Repr

/-- Plugin responses observed during one `determineStatus` evaluation.
`aliveResult` is the value after `.catch(() => true)`; `probeThrew`
records the activity `try` block throwing before a decisive answer. -/
structure DetObs where
  hasProject : Bool := true
  hasAgent : Bool := true
  hasRuntimePlugin : Bool := true
  aliveResult : Bool := true
  probeThrew : Bool := false
  terminalOutput : String := ""
  activity : Activity := .active
  processAlive : Bool := true
  detectThrew : Bool := false
  detectedPR : Bool := false
  scmPresent : Bool := false
  scmThrew : Bool := false
  scm : ScmView := ⟨.open_, .none_, .none_, false⟩
deriving DecidableEq, Repr

/-- Step 4 of `determineStatus`: classify by PR state, CI, review
decision and mergeability, in the source's order. -/
def prStateStatus (v : ScmView) : SessionStatus :=
  if v.prState = .merged then .merged
  else if v.prState = .closed then .killed
  else if v.ci = .failing then .ci_failed
  else if v.review = .changes_requested then .changes_requested
  else if v.review = .approved then (if v.mergeable then .mergeable else .approved)
  else if v.review = .pending then .review_pending
  else .pr_open

/-- Step 2 of `determineStatus` (the agent activity probe): `some st`
when the probe returns a status, `none` when control falls through. -/
def activityProbe (s : SessionView) (o : DetObs) : Option SessionStatus :=
  if o.hasAgent && s.hasRuntimeHandle then
    if o.probeThrew then
      if s.status = .stuck ∨ s.status = .needs_input then some s.status else none
    else if !o.terminalOutput.isEmpty then
      if o.activity = .waiting_input then some .needs_input
      else if !o.processAlive then some .killed
      else none
    else none
  else none

/-- Function `determineStatus` from the lifecycle manager: the five-step
classification pipeline over one session and one set of plugin
responses. -/
def determineStatus (s : SessionView) (o : DetObs) : SessionStatus :=
  if !o.hasProject then s.status
  else if s.hasRuntimeHandle && o.hasRuntimePlugin && !o.aliveResult then .killed
  else
    match activityProbe s o with
    | some st => st
    | none =>
      let pr := s.hasPR || (o.scmPresent && s.hasBranch && !o.detectThrew && o.detectedPR)
      if pr && o.scmPresent && !o.scmThrew then prStateStatus o.scm
      else if s.status = .spawning ∨ s.status = .stuck ∨ s.status = .needs_input then .working
      else s.status

/-! ## Transition handling (`checkSession`) -/

/-- Function `statusToEventType` from the lifecycle manager. -/
def statusToEventType (fromSt : Option SessionStatus) (toSt : SessionStatus) : Option String :=
  match toSt with
  | .working => some "session.working"
  | .pr_open => some (if fromSt = some .changes_requested then "pr.updated" else "pr.created")
  | .ci_failed => some "ci.failing"
  | .review_pending => some "review.pending"
  | .changes_requested => some "review.changes_requested"
  | .approved => some "review.approved"
  | .mergeable => some "merge.ready"
  | .merged => some "merge.completed"
  | .needs_input => some "session.needs_input"
  | .stuck => some "session.stuck"
  | .errored => some "session.errored"
  | .killed => some "session.killed"
  | _ => none

/-- Function `eventToReactionKey` from the lifecycle manager. -/
def eventToReactionKey (eventType : String) : Option String :=
  if eventType == "ci.failing" then some "ci-failed"
  else if eventType == "review.changes_requested" then some "changes-requested"
  else if eventType == "automated_review.found" then some "bugbot-comments"
  else if eventType == "merge.conflicts" then some "merge-conflicts"
  else if eventType == "merge.ready" then some "approved-and-green"
  else if eventType == "pr.created" then some "pr-created"
  else if eventType == "pr.updated" then some "pr-updated"
  else if eventType == "session.stuck" then some "agent-stuck"
  else if eventType == "session.needs_input" then some "agent-needs-input"
  else if eventType == "session.killed" then some "agent-exited"
  else if eventType == "summary.all_complete" then some "all-complete"
  else none

/-- The resolution test of the `ci_failed`-transition branch of
`checkSession` (lines 1109-1113). -/
def ciResolved (st : SessionStatus) : Bool :=
  st = .pr_open || st = .review_pending || st = .approved || st = .mergeable

/-- The event appended by the `ci_failed`-transition branch of
`checkSession` (lines 1106-1127): present only when a `ci-failed`
tracker with a positive attempt count exists. -/
def ciBranchEvents (oldSt newSt : SessionStatus) (ciAttempts : Option Nat) : List MEvent :=
  if oldSt = .ci_failed then
    match ciAttempts with
    | some n =>
      if 0 < n then
        [{ type := if ciResolved newSt then "ci.passing" else "ci.fix_failed",
           attempt := some n, resolved := some (ciResolved newSt) }]
      else []
    | none => []
  else []

/-- Per-`checkSession` context: the `ci-failed` tracker entry, the merged
reaction configuration table, and the tracker/time/environment used if a
reaction fires. The lifecycle manager is modelled as instantiated
without the optional plan, outcome and retrospective collaborators. -/
structure CheckCtx where
  ciFailedAttempts : Option Nat := none
  reactions : String → Option ReactionConfig := fun _ => none
  reactionTracker : ReactionTracker := ⟨0, 0⟩
  now : Nat := 0
  env : ExecEnv := {}

/-- The events appended to the event store by one `checkSession` run,
given the old tracked status and the freshly determined status: nothing
without a transition; otherwise the `ci_failed`-branch event, the
transition event, and the events of the dispatched reaction (if one is
configured and not suppressed by `auto: false`). -/
def checkSessionEvents (oldSt newSt : SessionStatus) (ctx : CheckCtx) : List MEvent :=
  if newSt = oldSt then []
  else
    ciBranchEvents oldSt newSt ctx.ciFailedAttempts ++
    match statusToEventType (some oldSt) newSt with
    | none => []
    | some t =>
      let reactionEvents : List MEvent :=
        match eventToReactionKey t with
        | none => []
        | some key =>
          match ctx.reactions key with
          | none => []
          | some cfg =>
            match cfg.action with
            | none => []
            | some _ =>
              if cfg.auto != some false || cfg.action == some "notify" then
                (executeReaction key cfg ctx.reactionTracker ctx.now ctx.env).events
              else []
      { type := t } :: reactionEvents

/-- Composition `check(id)` → `checkSession`: the events appended for a session whose
tracked status is `oldSt`, with `determineStatus` evaluated on the given
observations. -/
def checkSessionRun (s : SessionView) (oldSt : SessionStatus) (o : DetObs)
    (ctx : CheckCtx) : List MEvent :=
  checkSessionEvents oldSt (determineStatus s o) ctx

/-! ## Poll cycle summary trigger (`pollAll`) -/

/-- The activity test of `pollAll`'s all-complete check (line 1362):
a session counts as active unless its status is `merged` or `killed`. -/
def isPollActive (s : SessionStatus) : Bool :=
  decide (s ≠ .merged) && decide (s ≠ .killed)

/-- One poll cycle's input: the statuses returned by `list()` at the
start of the cycle, and whether some `checkSession` in the cycle detected
a transition to a status outside `{merged, killed}` (which clears the
`allCompleteEmitted` guard, lines 1129-1132). -/
structure PollCycle where
  statuses : List SessionStatus
  resetDuringCycle : Bool
deriving DecidableEq, Repr

/-- The all-complete trigger of one `pollAll` cycle (lines 1361-1376)
acting on the `allCompleteEmitted` guard: returns the new guard value and
whether the trigger fired this cycle. -/
def pollCycleStep (flag : Bool) (c : PollCycle) : Bool × Bool :=
  let flag1 := if c.resetDuringCycle then false else flag
  let trigger := decide (c.statuses.length > 0) &&
    ((c.statuses.filter isPollActive).length == 0) && !flag1
  (flag1 || trigger, trigger)

/-- Run a sequence of poll cycles from a guard value, collecting the
trigger bit of each cycle. -/
def runPolls (flag : Bool) : List PollCycle → Bool × List Bool
  | [] => (flag, [])
  | c :: rest =>
    let fe := pollCycleStep flag c
    let rest2 := runPolls fe.1 rest
    (rest2.1, fe.2 :: rest2.2)

/-! ## Event store (`append`) -/

/-- JS `Array.prototype.slice` with a single, possibly negative,
argument. -/
def jsSlice {α : Type} (arr : List α) (start : Int) : List α :=
  let b : Nat := if start < 0 then ((arr.length : Int) + start).toNat
    else min start.toNat arr.length
  arr.drop b

/-- The event store's observable state: the (well-formed) lines of the
JSONL file and the in-memory `lineCount`, plus the configured
`maxEvents`. -/
structure EventStoreState (α : Type) where
  lines : List α
  lineCount : Nat
  maxEvents : Nat
deriving DecidableEq, Repr

/-- Function `append` from the event store: lazily prune to the most recent
`maxEvents - 1` events (via `slice(-maxEvents + 1)`) when the line count
has reached `maxEvents`, then append. -/
def appendEvent {α : Type} (st : EventStoreState α) (e : α) : EventStoreState α :=
  if st.lineCount ≥ st.maxEvents then
    let kept := jsSlice st.lines (-(st.maxEvents : Int) + 1)
    { st with lines := kept ++ [e], lineCount := kept.length + 1 }
  else
    { st with lines := st.lines ++ [e], lineCount := st.lineCount + 1 }

/-! ## Plan service (`approvePlan` spawn loop, `spawnReadyTasks`) -/

/-- The plan-task fields the dependency-gating logic consults. -/
structure PlanTask where
  id : String
  dependencies : List String
  sessionId : Option String
deriving DecidableEq, Repr

/-- Plan statuses. -/
inductive PlanStatus where
  | planning
  | ready
  | approved
  | executing
  | done
  | failed
deriving DecidableEq, Repr

/-- The spawn loop at the end of `approvePlan`: tasks with a non-empty
dependency list are skipped (left without a `sessionId`); the rest get
the session id returned by `spawn` (`none` models the call throwing, in
which case the task is left unchanged). -/
def approveSpawnLoop (spawn : PlanTask → Option String) (tasks : List PlanTask) :
    List PlanTask :=
  tasks.map fun t =>
    if t.dependencies.length > 0 then t
    else
      match spawn t with
      | some sid => { t with sessionId := some sid }
      | none => t

/-- The `taskId → sessionId` map built by `spawnReadyTasks` over the
plan's tasks (later entries overwrite earlier ones, as `Map.set` does). -/
def taskSessionMap (tasks : List PlanTask) (depId : String) : Option String :=
  tasks.foldl
    (fun acc t =>
      match t.sessionId with
      | some sid => if t.id == depId then some sid else acc
      | none => acc)
    none

/-- The dependency gate of `spawnReadyTasks`: every dependency id maps to
a session whose status the session manager reports as `merged`. -/
def depsAllMerged (tasks : List PlanTask) (statusOf : String → Option SessionStatus)
    (t : PlanTask) : Bool :=
  t.dependencies.all fun depId =>
    match taskSessionMap tasks depId with
    | some sid => statusOf sid == some SessionStatus.merged
    | none => false

/-- Function `spawnReadyTasks` from the plan service: on an `executing` plan,
spawn each waiting task (non-empty dependencies, no session yet) whose
dependencies have all merged; the dependency map is built once, before
any spawning. -/
def spawnReadyTasks (pstatus : PlanStatus) (statusOf : String → Option SessionStatus)
    (spawn : PlanTask → Option String) (tasks : List PlanTask) : List PlanTask :=
  if pstatus ≠ .executing then tasks
  else
    tasks.map fun t =>
      if t.dependencies.length > 0 && t.sessionId.isNone then
        if depsAllMerged tasks statusOf t then
          match spawn t with
          | some sid => { t with sessionId := some sid }
          | none => t
        else t
      else t

/-! ## Review-batch decision fallback (`get`) -/

/-- The review fields the review-batch fallback consults. -/
structure ScmReview where
  state : String
  body : Option String
  submittedAt : Nat
deriving DecidableEq, Repr

/-- The review selected by
`reviews.sort((a, b) => b.submittedAt - a.submittedAt)[0]`: the earliest
listed review among those with maximal `submittedAt` (JS sort is
stable). -/
def latestReview? : List ScmReview → Option ScmReview
  | [] => none
  | r :: rs =>
    match latestReview? rs with
    | none => some r
    | some m => some (if m.submittedAt > r.submittedAt then m else r)

/-- Review-batch item statuses. -/
inductive BatchItemStatus where
  | pending
  | reviewing
  | fixing
  | fix_done
  | approved
  | rejected
deriving DecidableEq, Repr

/-- The body-parsing fallback of the review-batch `get` (lines 230-253):
when the SCM decision is `none` or `pending`, re-derive it from the
latest review's body (a missing or empty body leaves it unchanged). -/
def decisionFromBody (decision : ReviewDecision) (reviews : List ScmReview) :
    ReviewDecision :=
  if decision = .none_ ∨ decision = .pending then
    match latestReview? reviews with
    | some r =>
      match r.body with
      | some b =>
        if b.isEmpty then decision
        else
          let bodyUpper := upperStr b
          if strIncludes bodyUpper "REQUEST_CHANGES" ||
              strIncludes bodyUpper "REQUEST CHANGES" ||
              strIncludes bodyUpper "CHANGES REQUESTED" then
            .changes_requested
          else if strIncludes bodyUpper "LGTM" || strIncludes bodyUpper "APPROVE" then
            .approved
          else
            decision
      | none => decision
    | none => decision
  else decision

/-- The decision/status outcome recorded on a review-batch item. -/
structure ItemOutcome where
  reviewDecision : ReviewDecision
  status : BatchItemStatus
deriving DecidableEq, Repr

/-- The resolution of a `reviewing` review-batch item whose review
session has exited, with an SCM plugin available (lines 228-333):
apply the body fallback, then set the item status — `approved` also when
no clear signal remains (`fixSpawnOk = false` models the fixer spawn
throwing). -/
def resolveReviewedItem (decision0 : ReviewDecision) (reviews : List ScmReview)
    (autoFix : Bool) (fixSpawnOk : Bool) : ItemOutcome :=
  let decision := decisionFromBody decision0 reviews
  if decision = .approved then ⟨decision, .approved⟩
  else if decision = .changes_requested then
    if autoFix then
      if fixSpawnOk then ⟨decision, .fixing⟩ else ⟨decision, .rejected⟩
    else ⟨decision, .rejected⟩
  else ⟨decision, .approved⟩

/-- The body-parsing heuristic read as the spec words it (claim C1):
the signal, if any, carried by the latest review comment body. -/
def specBodySignal (reviews : List ScmReview) : Option ReviewDecision :=
  match latestReview? reviews with
  | some r =>
    match r.body with
    | some b =>
      if b.isEmpty then none
      else
        let bodyUpper := upperStr b
        if strIncludes bodyUpper "REQUEST_CHANGES" ||
            strIncludes bodyUpper "REQUEST CHANGES" ||
            strIncludes bodyUpper "CHANGES REQUESTED" then
          some .changes_requested
        else if strIncludes bodyUpper "LGTM" || strIncludes bodyUpper "APPROVE" then
          some .approved
        else
          none
    | none => none
  | none => none

/-- The claim wording of C3, read literally: the non-failing PR-bearing
session statuses (those the PR-state classification step can assign,
minus the failing ones). -/
def claimNonFailingPRBearing : SessionStatus → Bool
  | .pr_open | .review_pending | .approved | .mergeable | .merged => true
  | _ => false

/-! ## Theorems -/

theorem matchDuration_concat (ds : List Char) (u : Char) (hne : ds ≠ [])
    (hd : ds.all Char.isDigit = true) (hu : u = 's' ∨ u = 'm' ∨ u = 'h') :
    matchDuration (String.mk (ds ++ [u])) = some (ds, u) := by
  have hdata : (String.mk (ds ++ [u])).data = ds ++ [u] := rfl
  have h1 : (u == 's' || u == 'm' || u == 'h') = true := by
    rcases hu with h | h | h <;> subst h <;> rfl
  have h2 : ds.isEmpty = false := by
    cases ds with
    | nil => exact absurd rfl hne
    | cons a l => rfl
  unfold matchDuration
  rw [hdata, List.getLast?_concat, List.dropLast_concat]
  simp [h1, h2, hd]

theorem parseDuration_unit (ds : List Char) (u : Char) (hne : ds ≠ [])
    (hd : ds.all Char.isDigit = true) (hu : u = 's' ∨ u = 'm' ∨ u = 'h') :
    parseDuration (String.mk (ds ++ [u])) =
      parseIntDec ds *
        (if u = 's' then 1000 else if u = 'm' then 60000 else 3600000) := by
  unfold parseDuration
  rw [matchDuration_concat ds u hne hd hu]
  rcases hu with h | h | h <;> subst h <;> rfl

theorem matchDuration_some_shape (s : String) (ds : List Char) (u : Char)
    (h : matchDuration s = some (ds, u)) : durationShape s := by
  unfold matchDuration at h
  cases hg : s.data.getLast? with
  | none => rw [hg] at h; simp at h
  | some u0 =>
    rw [hg] at h
    dsimp only at h
    split at h
    · next hcond =>
      have hinj := Option.some.inj h
      have hds : s.data.dropLast = ds := congrArg Prod.fst hinj
      have hu : u0 = u := congrArg Prod.snd hinj
      obtain ⟨l', hl'⟩ := List.getLast?_eq_some_iff.mp hg
      have hdrop : s.data.dropLast = l' := by rw [hl', List.dropLast_concat]
      have hshape : s.data = ds ++ [u] := by rw [hl', ← hdrop, hds, hu]
      obtain ⟨h12, h3⟩ := Bool.and_eq_true_iff.mp hcond
      obtain ⟨h1, h2⟩ := Bool.and_eq_true_iff.mp h12
      rw [hds] at h2 h3
      refine ⟨ds, u, hshape, ?_, h3, ?_⟩
      · intro hnil
        rw [hnil] at h2
        simp at h2
      · rw [← hu]
        rcases Bool.or_eq_true_iff.mp h1 with h4 | h4
        · rcases Bool.or_eq_true_iff.mp h4 with h5 | h5
          · exact Or.inl (eq_of_beq h5)
          · exact Or.inr (Or.inl (eq_of_beq h5))
        · exact Or.inr (Or.inr (eq_of_beq h4))
    · simp at h

theorem parseDuration_ne_zero_shape (s : String) (h : parseDuration s ≠ 0) :
    durationShape s := by
  unfold parseDuration at h
  cases hm : matchDuration s with
  | none => rw [hm] at h; exact absurd rfl h
  | some p => exact matchDuration_some_shape s p.1 p.2 (by rw [hm])

/-- C10: `parseDuration` maps "Ns" to N·1000 ms, "Nm" to N·60000 ms and
"Nh" to N·3600000 ms (N the decimal value of the digit group), yields 0
for every string not of the `<digits>{s|m|h}` shape (contrapositive:
a nonzero result forces the shape), and since the duration-string
escalation test demands a strictly positive parsed duration, a malformed
`escalateAfter` duration string never triggers time-based escalation
(any string on which the test fires has the shape). -/
theorem c10_parseDuration_spec :
    (∀ ds : List Char, ds ≠ [] → ds.all Char.isDigit = true →
      parseDuration (String.mk (ds ++ ['s'])) = parseIntDec ds * 1000 ∧
      parseDuration (String.mk (ds ++ ['m'])) = parseIntDec ds * 60000 ∧
      parseDuration (String.mk (ds ++ ['h'])) = parseIntDec ds * 3600000) ∧
    (∀ s : String, parseDuration s ≠ 0 → durationShape s) ∧
    (∀ s : String, ∀ now firstTriggered : Nat,
      stringEscalation s now firstTriggered = true → durationShape s) := by
  refine ⟨?_, parseDuration_ne_zero_shape, ?_⟩
  · intro ds hne hd
    refine ⟨?_, ?_, ?_⟩
    · simpa using parseDuration_unit ds 's' hne hd (Or.inl rfl)
    · simpa using parseDuration_unit ds 'm' hne hd (Or.inr (Or.inl rfl))
    · simpa using parseDuration_unit ds 'h' hne hd (Or.inr (Or.inr rfl))
  · intro s now ft h
    unfold stringEscalation at h
    have hpos : 0 < parseDuration s := by
      rcases Bool.and_eq_true_iff.mp h with ⟨h1, _⟩
      exact of_decide_eq_true h1
    exact parseDuration_ne_zero_shape s (Nat.pos_iff_ne_zero.mp hpos)

/-- Witness for C10 at concrete inputs: "42s" parses to 42000 ms, and the
escalation test firing on "5m" certifies the duration shape. -/
theorem c10_parseDuration_spec_witness :
    parseDuration (String.mk (['4', '2'] ++ ['s'])) = parseIntDec ['4', '2'] * 1000 ∧
    durationShape "5m" :=
  ⟨(c10_parseDuration_spec.1 ['4', '2'] (by decide) (by decide)).1,
   c10_parseDuration_spec.2.2 "5m" 500000 0 (by decide)⟩

/-- Concrete session for the C4 witness: a worktree session with a PR and
no runtime handle. -/
def c4Session : SessionView := ⟨.working, true, true, false⟩

/-- Concrete observations for the C4 witness: SCM reports an open PR,
passing CI, an approving review, and a mergeable PR. -/
def c4Obs : DetObs := { scmPresent := true, scm := ⟨.open_, .passing, .approved, true⟩ }

/-- C4: for a session with a PR and an available SCM plugin whose
classification reaches the PR-state step (the project is configured, the
runtime-liveness probe did not report dead, and the activity probe fell
through), `determineStatus` classifies by PR state in exactly the claimed
priority order: merged, closed ⇒ killed, CI failing ⇒ ci_failed, review
changes_requested, approved + mergeable ⇒ mergeable, approved,
pending ⇒ review_pending, else pr_open. -/
theorem c4_pr_state_priority (s : SessionView) (o : DetObs)
    (hproj : o.hasProject = true)
    (halive : (s.hasRuntimeHandle && o.hasRuntimePlugin && !o.aliveResult) = false)
    (hprobe : activityProbe s o = none)
    (hpr : s.hasPR = true) (hscm : o.scmPresent = true) (hok : o.scmThrew = false) :
    determineStatus s o =
      (if o.scm.prState = .merged then .merged
       else if o.scm.prState = .closed then .killed
       else if o.scm.ci = .failing then .ci_failed
       else if o.scm.review = .changes_requested then .changes_requested
       else if o.scm.review = .approved then
         (if o.scm.mergeable then .mergeable else .approved)
       else if o.scm.review = .pending then .review_pending
       else .pr_open) := by
  unfold determineStatus
  rw [hproj, halive, hprobe]
  simp [hpr, hscm, hok, prStateStatus]

/-- Witness for C4: plugins reporting an approved, mergeable, CI-passing
open PR classify the session as `mergeable`. -/
theorem c4_pr_state_priority_witness :
    determineStatus c4Session c4Obs = .mergeable := by
  have h := c4_pr_state_priority c4Session c4Obs rfl rfl rfl rfl rfl rfl
  simpa using h

theorem decisionFromBody_eq_signal (d0 : ReviewDecision) (reviews : List ScmReview)
    (hd0 : d0 = .none_ ∨ d0 = .pending) :
    decisionFromBody d0 reviews = (specBodySignal reviews).getD d0 := by
  unfold decisionFromBody specBodySignal
  rw [if_pos hd0]
  cases latestReview? reviews with
  | none => rfl
  | some r =>
    dsimp only
    cases r.body with
    | none => rfl
    | some b =>
      dsimp only
      by_cases he : b.isEmpty = true
      · simp [he]
      · simp only [Bool.not_eq_true] at he
        simp only [he]
        split_ifs <;> rfl

/-- Concrete review list for the C1 witness: a latest comment body with
no APPROVE / REQUEST_CHANGES signal. -/
def c1Reviews : List ScmReview := [⟨"commented", some "I left a few remarks inline.", 5⟩]

/-- C1: with an SCM review decision of none/pending, the review-batch
`get` re-derives the decision from the latest review comment body, and a
body with no signal leaves the decision unchanged (approval is not
inferred into the decision) — but the code then nevertheless marks the
item's status approved, which is the part the claim gets wrong (see the
counterexample). -/
theorem c1_review_fallback (d0 : ReviewDecision) (reviews : List ScmReview)
    (autoFix fixOk : Bool) (hd0 : d0 = .none_ ∨ d0 = .pending) :
    decisionFromBody d0 reviews = (specBodySignal reviews).getD d0 ∧
    (specBodySignal reviews = none →
      (resolveReviewedItem d0 reviews autoFix fixOk).reviewDecision = d0 ∧
      (resolveReviewedItem d0 reviews autoFix fixOk).status = .approved) := by
  refine ⟨decisionFromBody_eq_signal d0 reviews hd0, ?_⟩
  intro hsig
  have hdec : decisionFromBody d0 reviews = d0 := by
    rw [decisionFromBody_eq_signal d0 reviews hd0, hsig]
    rfl
  rcases hd0 with h | h <;> subst h <;>
    simp [resolveReviewedItem, hdec]

/-- Witness for C1 at concrete inputs: an unsignalled body leaves the
decision at `none` while the item status becomes `approved`. -/
theorem c1_review_fallback_witness :
    decisionFromBody .none_ c1Reviews = (specBodySignal c1Reviews).getD .none_ ∧
    (resolveReviewedItem .none_ c1Reviews true true).reviewDecision = .none_ ∧
    (resolveReviewedItem .none_ c1Reviews true true).status = .approved :=
  ⟨(c1_review_fallback .none_ c1Reviews true true (Or.inl rfl)).1,
   (c1_review_fallback .none_ c1Reviews true true (Or.inl rfl)).2 (by decide)⟩

/-- Counterexample to C1 as stated: at a concrete input whose latest
review body carries no APPROVE / REQUEST_CHANGES signal, the item is
nevertheless inferred to be approved (`status = approved`), even though
the decision itself stays `none`. -/
theorem c1_counterexample :
    specBodySignal c1Reviews = none ∧
    (resolveReviewedItem .none_ c1Reviews true true).reviewDecision = .none_ ∧
    (resolveReviewedItem .none_ c1Reviews true true).status = .approved := by
  decide

/-- C7 (amended): on an append when the stored line count equals
`maxEvents` and `maxEvents ≥ 2` (for `maxEvents = 1` the `slice(-0)`
call keeps everything — see the counterexample), the store rewrites the
file to the most recent `maxEvents − 1` events and appends, so the file
afterwards holds exactly `maxEvents` lines, its oldest line is the one
previously in position 2, and its newest is the appended event. -/
theorem c7_append_at_capacity {α : Type} (st : EventStoreState α) (e : α)
    (hmax : 2 ≤ st.maxEvents) (hcount : st.lineCount = st.maxEvents)
    (hwf : st.lines.length = st.lineCount) :
    (appendEvent st e).lines.length = st.maxEvents ∧
    (appendEvent st e).lineCount = st.maxEvents ∧
    (appendEvent st e).lines.head? = st.lines[1]? ∧
    (appendEvent st e).lines.getLast? = some e := by
  have hge : st.lineCount ≥ st.maxEvents := ge_of_eq hcount
  have hlen : st.lines.length = st.maxEvents := hwf.trans hcount
  have hb : jsSlice st.lines (-(st.maxEvents : Int) + 1) = st.lines.drop 1 := by
    unfold jsSlice
    have hneg : (-(st.maxEvents : Int) + 1) < 0 := by omega
    have htn : ((st.lines.length : Int) + (-(st.maxEvents : Int) + 1)).toNat = 1 := by
      omega
    rw [if_pos hneg, htn]
  have hdlen : (st.lines.drop 1).length = st.maxEvents - 1 := by
    rw [List.length_drop, hlen]
  have hdne : st.lines.drop 1 ≠ [] := by
    intro hnil
    have := congrArg List.length hnil
    rw [hdlen] at this
    simp at this
    omega
  unfold appendEvent
  rw [if_pos hge, hb]
  refine ⟨?_, ?_, ?_, List.getLast?_concat _⟩
  · simp only [List.length_append, hdlen, List.length_cons, List.length_nil]
    omega
  · simp only [hdlen]
    omega
  · rw [List.head?_append_of_ne_nil _ hdne, List.head?_drop]

/-- Witness for C7 at a concrete store: capacity 3, lines [10, 20, 30],
appending 40 yields 3 lines, oldest 20, newest 40. -/
theorem c7_append_at_capacity_witness :
    (appendEvent (⟨[10, 20, 30], 3, 3⟩ : EventStoreState Nat) 40).lines.length = 3 ∧
    (appendEvent (⟨[10, 20, 30], 3, 3⟩ : EventStoreState Nat) 40).lines.head? = some 20 ∧
    (appendEvent (⟨[10, 20, 30], 3, 3⟩ : EventStoreState Nat) 40).lines.getLast? = some 40 := by
  obtain ⟨h1, _, h3, h4⟩ :=
    c7_append_at_capacity (⟨[10, 20, 30], 3, 3⟩ : EventStoreState Nat) 40 (by decide) rfl rfl
  exact ⟨h1, h3.trans rfl, h4⟩

/-- Counterexample to C7 as stated: with `maxEvents = 1` and the line
count at capacity, `slice(-1 + 1) = slice(0)` keeps every event instead
of the most recent none, so after the append the file holds 2 lines, not
`maxEvents`. -/
theorem c7_counterexample :
    (⟨[7], 1, 1⟩ : EventStoreState Nat).lineCount =
      (⟨[7], 1, 1⟩ : EventStoreState Nat).maxEvents ∧
    (appendEvent (⟨[7], 1, 1⟩ : EventStoreState Nat) 8).lines = [7, 8] ∧
    (appendEvent (⟨[7], 1, 1⟩ : EventStoreState Nat) 8).lines.length ≠
      (⟨[7], 1, 1⟩ : EventStoreState Nat).maxEvents := by
  decide

/-- Concrete plan tasks for the C8 witness: task A (no dependencies,
session merged), task C depending on A and not yet spawned. -/
def c8Tasks : List PlanTask := [⟨"A", [], some "sA"⟩, ⟨"C", ["A"], none⟩]

/-- Concrete session-status oracle for the C8 witness. -/
def c8StatusOf (sid : String) : Option SessionStatus :=
  if sid == "sA" then some .merged else none

/-- C8: `approvePlan`'s spawn loop leaves every task with a non-empty
dependency list untouched (no `sessionId` is assigned), and
`spawnReadyTasks` assigns a session to a task only if the task was
waiting (no session, non-empty dependencies) and every one of its
dependency ids maps, through the plan's task → session map, to a session
the session manager reports as `merged`. -/
theorem c8_dependency_gated_spawn (spawnA spawnR : PlanTask → Option String)
    (statusOf : String → Option SessionStatus) (tasks : List PlanTask)
    (pstatus : PlanStatus) (i : Nat) :
    (∀ t, tasks[i]? = some t → t.dependencies ≠ [] →
      (approveSpawnLoop spawnA tasks)[i]? = some t) ∧
    (∀ tOld tNew, tasks[i]? = some tOld →
      (spawnReadyTasks pstatus statusOf spawnR tasks)[i]? = some tNew →
      tNew.sessionId ≠ tOld.sessionId →
      tOld.sessionId = none ∧ tOld.dependencies ≠ [] ∧
      ∀ d ∈ tOld.dependencies, ∃ sid,
        taskSessionMap tasks d = some sid ∧ statusOf sid = some .merged) := by
  constructor
  · intro t ht hdep
    unfold approveSpawnLoop
    rw [List.getElem?_map, ht]
    have hpos : t.dependencies.length > 0 := List.length_pos.mpr hdep
    simp [hpos]
  · intro tOld tNew ht htn hne
    unfold spawnReadyTasks at htn
    by_cases hex : pstatus = PlanStatus.executing
    case neg =>
      rw [if_pos (by simpa using hex), ht] at htn
      have heq := Option.some.inj htn
      exact absurd (congrArg PlanTask.sessionId heq.symm) hne
    case pos =>
      rw [if_neg (by simp [hex])] at htn
      rw [List.getElem?_map, ht] at htn
      have htn' := Option.some.inj htn
      dsimp only at htn'
      by_cases hcond : (tOld.dependencies.length > 0 && tOld.sessionId.isNone) = true
      · rw [if_pos hcond] at htn'
        obtain ⟨hlen, hnone⟩ := Bool.and_eq_true_iff.mp hcond
        have hdep : tOld.dependencies ≠ [] := by
          intro hnil
          rw [hnil] at hlen
          simp at hlen
        refine ⟨Option.isNone_iff_eq_none.mp hnone, hdep, ?_⟩
        by_cases hmerged : depsAllMerged tasks statusOf tOld = true
        · intro d hd
          have hall := List.all_eq_true.mp (by unfold depsAllMerged at hmerged; exact hmerged) d hd
          cases hmap : taskSessionMap tasks d with
          | none => rw [hmap] at hall; simp at hall
          | some sid =>
            rw [hmap] at hall
            exact ⟨sid, rfl, by simpa using hall⟩
        · rw [if_neg hmerged] at htn'
          exact absurd (congrArg PlanTask.sessionId htn'.symm) hne
      · rw [if_neg hcond] at htn'
        exact absurd (congrArg PlanTask.sessionId htn'.symm) hne

/-- Witness for C8 at concrete inputs: task C (depending on A) is
skipped by the approve loop, and when `spawnReadyTasks` does assign it a
session, its dependency A maps to a merged session. -/
theorem c8_dependency_gated_spawn_witness :
    (approveSpawnLoop (fun _ => some "x") c8Tasks)[1]? = some ⟨"C", ["A"], none⟩ ∧
    (∀ d ∈ (⟨"C", ["A"], none⟩ : PlanTask).dependencies, ∃ sid,
      taskSessionMap c8Tasks d = some sid ∧ c8StatusOf sid = some .merged) := by
  refine ⟨?_, ?_⟩
  · exact (c8_dependency_gated_spawn (fun _ => some "x") (fun _ => some "sC") c8StatusOf
      c8Tasks .executing 1).1 ⟨"C", ["A"], none⟩ rfl (by decide)
  · exact ((c8_dependency_gated_spawn (fun _ => some "x") (fun _ => some "sC") c8StatusOf
      c8Tasks .executing 1).2 ⟨"C", ["A"], none⟩ ⟨"C", ["A"], some "sC"⟩ rfl (by decide)
      (by decide)).2.2

theorem runPolls_true_of_noReset (post : List PollCycle)
    (h : ∀ p ∈ post, p.resetDuringCycle = false) :
    runPolls true post = (true, List.replicate post.length false) := by
  induction post with
  | nil => rfl
  | cons p rest ih =>
    have hp : p.resetDuringCycle = false := h p (by simp)
    have hrest := ih fun q hq => h q (by simp [hq])
    have hstep : pollCycleStep true p = (true, false) := by
      unfold pollCycleStep
      rw [hp]
      simp
    simp [runPolls, hstep, hrest, List.replicate_succ]

/-- C5 (amended): once a poll cycle sees a non-empty session list in
which every session is `merged` or `killed` (a `done` session counts as
active for this check — see the counterexample) and the guard is clear,
the all-complete trigger fires in that cycle and in no later cycle as
long as no `checkSession` detects a transition to a status outside
`{merged, killed}`. (The trigger runs the configured `all-complete`
reaction; `pollAll` appends no `summary.all_complete` event itself.) -/
theorem c5_all_complete_once (f : Bool) (c : PollCycle) (post : List PollCycle)
    (hne : c.statuses ≠ []) (hterm : c.statuses.filter isPollActive = [])
    (hflag : (if c.resetDuringCycle then false else f) = false)
    (hpost : ∀ p ∈ post, p.resetDuringCycle = false) :
    (runPolls f (c :: post)).2 = true :: List.replicate post.length false := by
  have hlen : decide (c.statuses.length > 0) = true := by
    simp [List.length_pos.mpr hne]
  have hstep : pollCycleStep f c = (true, true) := by
    unfold pollCycleStep
    rw [hflag, hterm, hlen]
    simp
  simp [runPolls, hstep, runPolls_true_of_noReset post hpost]

/-- Witness for C5 at concrete cycles: all sessions merged/killed fires
the trigger once; two further quiet cycles fire nothing. -/
theorem c5_all_complete_once_witness :
    (runPolls false [⟨[.merged, .killed], false⟩, ⟨[.merged, .killed], false⟩,
        ⟨[.merged, .killed], false⟩]).2 = true :: List.replicate 2 false :=
  c5_all_complete_once false ⟨[.merged, .killed], false⟩
    [⟨[.merged, .killed], false⟩, ⟨[.merged, .killed], false⟩]
    (by decide) (by decide) (by decide) (by decide)

/-- Counterexample to C5 as stated: a lone session in the terminal status
`done` (the spec's terminal set is `{merged, killed, done}`) does not
fire the all-complete trigger, because `pollAll` counts every status
other than `merged`/`killed` — including `done` — as active. -/
theorem c5_counterexample :
    [SessionStatus.done] ≠ [] ∧
    [SessionStatus.done].all TERMINAL_STATUSES = true ∧
    (pollCycleStep false ⟨[SessionStatus.done], false⟩).2 = false := by
  decide

theorem shouldEscalateFn_iff (cfg : ReactionConfig) (a now ft : Nat) :
    shouldEscalateFn cfg a now ft = true ↔
      (∃ r, cfg.retries = some r ∧ a > r) ∨
      (∃ s, cfg.escalateAfter = some (.str s) ∧
        0 < parseDuration s ∧ now - ft > parseDuration s) ∨
      (∃ n, cfg.escalateAfter = some (.int n) ∧ a > n) := by
  unfold shouldEscalateFn stringEscalation
  cases hr : cfg.retries with
  | none =>
    cases he : cfg.escalateAfter with
    | none => simp
    | some ea =>
      cases ea with
      | str s => simp
      | int n => simp
  | some r =>
    cases he : cfg.escalateAfter with
    | none => simp
    | some ea =>
      cases ea with
      | str s => simp
      | int n => simp

set_option maxHeartbeats 1000000 in
theorem actionPhase_fields (key : String) (cfg : ReactionConfig) (trk1 : ReactionTracker)
    (env : ExecEnv) :
    (actionPhase key cfg trk1 env).tracker = trk1 ∧
    (actionPhase key cfg trk1 env).result.escalated = false := by
  unfold actionPhase
  dsimp only
  repeat' split
  all_goals exact ⟨rfl, rfl⟩

theorem executeReaction_tracker (key : String) (cfg : ReactionConfig)
    (trk : ReactionTracker) (now : Nat) (env : ExecEnv) :
    (executeReaction key cfg trk now env).tracker =
      ⟨trk.attempts + 1, trk.firstTriggered⟩ := by
  unfold executeReaction
  dsimp only
  split
  · rfl
  · exact (actionPhase_fields key cfg _ env).1

theorem executeReaction_escalated (key : String) (cfg : ReactionConfig)
    (trk : ReactionTracker) (now : Nat) (env : ExecEnv) :
    (executeReaction key cfg trk now env).result.escalated =
      shouldEscalateFn cfg (trk.attempts + 1) now trk.firstTriggered := by
  unfold executeReaction
  dsimp only
  cases h : shouldEscalateFn cfg (trk.attempts + 1) now trk.firstTriggered with
  | true => rfl
  | false => exact (actionPhase_fields key cfg _ env).2

/-- Concrete configuration for the C2 counterexample: five retries, an
integer `escalateAfter` of 10. -/
def c2cCfg : ReactionConfig :=
  { action := some "notify", retries := some 5, escalateAfter := some (.int 10) }

/-- Concrete configuration for the C2 witness. -/
def c2wCfg : ReactionConfig :=
  { action := some "send-to-agent", message := some "fix it", retries := some 0 }

/-- C2 (amended): a reaction execution escalates if and only if the
incremented attempt counter exceeds the configured `retries`, or
`escalateAfter` is a duration string that parses to a positive duration
exceeded by the elapsed time since `firstTriggered`, or `escalateAfter`
is an integer that the incremented attempt counter exceeds (the integer
form bounds attempts, not elapsed time — see the counterexample); on
escalation the reaction action does not execute: the invocation returns
the escalated result, appends exactly one `reaction.escalated` event,
sends nothing to the agent, and invokes the notifier at the configured
priority, defaulting to `urgent`. -/
theorem c2_escalation_rule (key : String) (cfg : ReactionConfig) (trk : ReactionTracker)
    (now : Nat) (env : ExecEnv) :
    ((executeReaction key cfg trk now env).result.escalated = true ↔
      (∃ r, cfg.retries = some r ∧ trk.attempts + 1 > r) ∨
      (∃ s, cfg.escalateAfter = some (.str s) ∧
        0 < parseDuration s ∧ now - trk.firstTriggered > parseDuration s) ∨
      (∃ n, cfg.escalateAfter = some (.int n) ∧ trk.attempts + 1 > n)) ∧
    ((executeReaction key cfg trk now env).result.escalated = true →
      executeReaction key cfg trk now env =
        { tracker := ⟨trk.attempts + 1, trk.firstTriggered⟩
          result := ⟨key, true, "escalated", true⟩
          events := [⟨"reaction.escalated", some (trk.attempts + 1), none, false⟩]
          notified := some (cfg.priority.getD .urgent)
          sentToAgent := false }) := by
  constructor
  · rw [executeReaction_escalated]
    exact shouldEscalateFn_iff cfg (trk.attempts + 1) now trk.firstTriggered
  · intro hesc
    rw [executeReaction_escalated] at hesc
    unfold executeReaction
    dsimp only
    rw [if_pos hesc]

/-- Witness for C2 at concrete inputs: with `retries: 0`, the first
execution escalates, appends the escalation event and notifies at the
default `urgent` priority without sending to the agent. -/
theorem c2_escalation_rule_witness :
    (executeReaction "ci-failed" c2wCfg ⟨0, 0⟩ 0 {}).result.escalated = true ∧
    executeReaction "ci-failed" c2wCfg ⟨0, 0⟩ 0 {} =
      { tracker := ⟨1, 0⟩
        result := ⟨"ci-failed", true, "escalated", true⟩
        events := [⟨"reaction.escalated", some 1, none, false⟩]
        notified := some .urgent
        sentToAgent := false } := by
  have h := c2_escalation_rule "ci-failed" c2wCfg ⟨0, 0⟩ 0 {}
  have hesc : (executeReaction "ci-failed" c2wCfg ⟨0, 0⟩ 0 {}).result.escalated = true :=
    h.1.mpr (Or.inl ⟨0, rfl, by decide⟩)
  exact ⟨hesc, h.2 hesc⟩

/-- Counterexample to C2 as stated: with `escalateAfter` the integer 10,
`retries: 5`, one attempt and an elapsed time of 999999 ms — far beyond
10 — no escalation fires, because the integer form is compared against
the attempt counter, not the elapsed time. -/
theorem c2_counterexample :
    999999 - 0 > 10 ∧
    (executeReaction "ci-failed" c2cCfg ⟨0, 0⟩ 999999 {}).result.escalated = false := by
  decide

/-- Concrete environment for the C6 witness: the agent is active and its
recent terminal output shows it already fixing CI. -/
def c6Env : ExecEnv := { activityActive := true, recentOutput := "Fixing CI now" }

/-- Concrete configuration for the C6 witness. -/
def c6Cfg : ReactionConfig := { action := some "send-to-agent", message := some "please fix CI" }

/-- C6: every invocation of a send-to-agent reaction increments the
attempt counter before anything else; the escalation decision is taken
at the already-incremented count; and when the dedup check then skips
the send (agent active and its output matches the awareness keywords),
the invocation still ends with the counter incremented by one — the
skipped send therefore still counts toward escalation — recording only
the skipped `reaction.triggered` event and sending nothing. -/
theorem c6_dedup_counts_toward_escalation (key : String) (cfg : ReactionConfig)
    (trk : ReactionTracker) (now : Nat) (env : ExecEnv)
    (hact : cfg.action = some "send-to-agent") :
    (executeReaction key cfg trk now env).tracker.attempts = trk.attempts + 1 ∧
    ((executeReaction key cfg trk now env).result.escalated =
      shouldEscalateFn cfg (trk.attempts + 1) now trk.firstTriggered) ∧
    (∀ m, cfg.message = some m →
      shouldEscalateFn cfg (trk.attempts + 1) now trk.firstTriggered = false →
      env.dedupThrew = false → env.sessionFound = true → env.agentRuntimePresent = true →
      env.runtimeHandlePresent = true → env.activityActive = true →
      checkAgentAwareness key env.recentOutput = true →
      executeReaction key cfg trk now env =
        { tracker := ⟨trk.attempts + 1, trk.firstTriggered⟩
          result := ⟨key, true, "send-to-agent", false⟩
          events := [⟨"reaction.triggered", none, none, true⟩]
          notified := none
          sentToAgent := false }) := by
  refine ⟨by rw [executeReaction_tracker],
    executeReaction_escalated key cfg trk now env, ?_⟩
  intro m hmsg hnesc hthrew hfound hagent hhandle hactive haware
  unfold executeReaction
  dsimp only
  rw [if_neg (by simp [hnesc])]
  unfold actionPhase
  rw [hact]
  dsimp only
  rw [hmsg]
  dsimp only
  have hskip : (!env.dedupThrew && env.sessionFound && env.agentRuntimePresent &&
      env.runtimeHandlePresent && env.activityActive &&
      checkAgentAwareness key env.recentOutput) = true := by
    rw [hthrew, hfound, hagent, hhandle, hactive, haware]
    rfl
  simp [hskip]

/-- Witness for C6 at concrete inputs: a skipped send (agent already
aware of the CI failure) still moves the attempt counter from 2 to 3. -/
theorem c6_dedup_counts_toward_escalation_witness :
    (executeReaction "ci-failed" c6Cfg ⟨2, 0⟩ 50 c6Env).tracker.attempts = 2 + 1 ∧
    executeReaction "ci-failed" c6Cfg ⟨2, 0⟩ 50 c6Env =
      { tracker := ⟨3, 0⟩
        result := ⟨"ci-failed", true, "send-to-agent", false⟩
        events := [⟨"reaction.triggered", none, none, true⟩]
        notified := none
        sentToAgent := false } := by
  have h := c6_dedup_counts_toward_escalation "ci-failed" c6Cfg ⟨2, 0⟩ 50 c6Env rfl
  exact ⟨h.1, h.2.2 "please fix CI" rfl (by decide) rfl rfl rfl rfl rfl (by decide)⟩

/-- Concrete check context for the C3 witness: one recorded `ci-failed`
attempt. -/
def c3Ctx : CheckCtx := { ciFailedAttempts := some 1 }

/-- C3 (amended): on a transition out of `ci_failed` with a live
`ci-failed` tracker holding a positive attempt count, the first event
`checkSession` appends is `ci.passing` when the new status is one of
`pr_open`, `review_pending`, `approved`, `mergeable`, and `ci.fix_failed`
for every other new status — `merged` and `changes_requested` included —
carrying that attempt count. -/
theorem c3_ci_transition_event (oldSt newSt : SessionStatus) (n : Nat) (ctx : CheckCtx)
    (hold : oldSt = .ci_failed) (hne : newSt ≠ oldSt)
    (hatt : ctx.ciFailedAttempts = some n) (hn : 0 < n) :
    (checkSessionEvents oldSt newSt ctx).head? =
      some { type := if ciResolved newSt then "ci.passing" else "ci.fix_failed",
             attempt := some n, resolved := some (ciResolved newSt) } ∧
    (ciResolved newSt = true ↔
      newSt = .pr_open ∨ newSt = .review_pending ∨ newSt = .approved ∨
        newSt = .mergeable) := by
  subst hold
  constructor
  · have hci : ciBranchEvents .ci_failed newSt ctx.ciFailedAttempts =
        [{ type := if ciResolved newSt then "ci.passing" else "ci.fix_failed",
           attempt := some n, resolved := some (ciResolved newSt) }] := by
      unfold ciBranchEvents
      rw [hatt]
      simp [hn]
    unfold checkSessionEvents
    rw [if_neg hne, hci]
    rfl
  · cases newSt <;> simp [ciResolved]

/-- Witness for C3: a `ci_failed → pr_open` transition with one recorded
attempt appends `ci.passing` with attempt 1 first. -/
theorem c3_ci_transition_event_witness :
    (checkSessionEvents .ci_failed .pr_open c3Ctx).head? =
      some ⟨"ci.passing", some 1, some true, false⟩ := by
  have h := (c3_ci_transition_event .ci_failed .pr_open 1 c3Ctx rfl (by decide) rfl
    (by decide)).1
  simpa using h

/-- Counterexample to C3 as stated: `merged` is a non-failing PR-bearing
status, yet on a `ci_failed → merged` transition the code emits
`ci.fix_failed`, not `ci.passing`. -/
theorem c3_counterexample :
    claimNonFailingPRBearing .merged = true ∧
    (checkSessionEvents .ci_failed .merged { ciFailedAttempts := some 2 }).head? =
      some ⟨"ci.fix_failed", some 2, some false, false⟩ :=
  ⟨rfl, rfl⟩

/-- Concrete session and observations for the C9 witness: a merged
session whose SCM still reports the PR merged. -/
def c9Session : SessionView := ⟨.merged, true, true, false⟩

/-- Concrete observations for the C9 witness. -/
def c9Obs : DetObs := { scmPresent := true, scm := ⟨.merged, .none_, .none_, false⟩ }

/-- C9 (amended): `check(id)` on a session in a terminal status appends
no event **provided** the freshly determined status equals that terminal
status (plugins report a consistent state); when the plugins report a
state mapping to a different status, the code does process the
transition and appends events — see the counterexample. -/
theorem c9_check_terminal_noop (s : SessionView) (o : DetObs) (ctx : CheckCtx)
    (hterm : TERMINAL_STATUSES s.status = true)
    (hsame : determineStatus s o = s.status) :
    checkSessionRun s s.status o ctx = [] := by
  unfold checkSessionRun
  rw [hsame]
  unfold checkSessionEvents
  rw [if_pos rfl]

/-- Witness for C9: checking a merged session whose SCM reports the PR
merged appends nothing. -/
theorem c9_check_terminal_noop_witness :
    checkSessionRun c9Session SessionStatus.merged c9Obs {} = [] :=
  c9_check_terminal_noop c9Session c9Obs {} rfl rfl

/-- Counterexample to C9 as stated: checking a merged (terminal) session
whose SCM reports the PR closed detects a `merged → killed` transition
and appends a `session.killed` event — `check` has no terminal guard. -/
theorem c9_counterexample :
    TERMINAL_STATUSES SessionStatus.merged = true ∧
    checkSessionRun ⟨.merged, true, true, false⟩ .merged
        { scmPresent := true, scm := ⟨.closed, .none_, .none_, false⟩ } {} =
      [⟨"session.killed", none, none, false⟩] :=
  ⟨rfl, rfl⟩

end FleetCommander
